import Mathlib

/-!
Shallow embedding of the daily-goal tracker in src/app.js (the "10 or Die"
streak app).  Calendar days are modelled as natural numbers (days since an
epoch, the counterpart of toDateString identities), instants as a day plus a
millisecond-of-day, and localStorage as a record of optional stored values.
A stored JSON value is represented by its parse outcome (parse failure, or a
parsed value of some shape), since the claims only depend on those outcomes.
JavaScript exceptions (the ReferenceError from the undefined identifier in
displayTodayNotes, and TypeErrors from property access on non-objects) are
modelled by an Option JsErr result component; mutations performed before a
throw are kept in the returned state.
-/

namespace TenOrDie

/-- Milliseconds in a calendar day. -/
def msPerDay : Nat := 86400000

/-- Millisecond-of-day of the fixed 20:00 deadline (src/app.js lines 46, 91). -/
def deadlineMs : Nat := 72000000

/-- A wall-clock instant: the calendar-day identity (the counterpart of the
toDateString value, src/app.js line 36) plus the millisecond within that
day. -/
structure Instant where
  day : Nat
  ms : Nat
deriving DecidableEq

/-- Absolute milliseconds of an instant, for the Date comparisons and
subtraction in updateTimer. -/
def Instant.abs (t : Instant) : Nat := t.day * msPerDay + t.ms

/-- A note object as built by saveNote (src/app.js lines 507-515). -/
structure Note where
  id : Nat
  text : String
  timestamp : String
deriving DecidableEq

/-- One day's record in dailyDataStore: `{ date, approachCount, notes }`
(src/app.js lines 21-24, 236-242).  approachCount is an Int because it is
read back from JSON and only ever compared and assigned. -/
structure DayRecord where
  date : Nat
  approachCount : Int
  notes : List Note
deriving DecidableEq

/-- dailyDataStore: a JS object keyed by date identity, modelled as an
association list in insertion order (JS objects preserve insertion order for
these non-numeric date-string keys). -/
abbrev StoreMap := List (Nat × DayRecord)

/-- Property read `m[d]` on the store object: first (only) binding wins. -/
def lookupD : StoreMap → Nat → Option DayRecord
  | [], _ => none
  | (k, r) :: tl, d => if k = d then some r else lookupD tl d

/-- Property write `m[d] = r` on the store object: updates the existing key
in place (keeping insertion order) or appends a new key at the end. -/
def insertD : StoreMap → Nat → DayRecord → StoreMap
  | [], d, r => [(d, r)]
  | (k, r0) :: tl, d, r => if k = d then (d, r) :: tl else (k, r0) :: insertD tl d r

/-- Parse outcome of the stored "dailyDataStore" string: JSON.parse throws
(corrupt), or yields null, a number, or an object of the expected mapping
shape.  These are the shapes the claims need; other non-object primitives
behave like the number case (property reads give undefined). -/
inductive StoredStore where
  | corrupt
  | jnull
  | jnum (n : Int)
  | jmap (m : StoreMap)
deriving DecidableEq

/-- Parse outcome of the stored "currentStreak" string.  The app only ever
writes an integer here; a parse failure is the error case loadData catches. -/
inductive StoredStreak where
  | corrupt
  | jint (n : Int)
deriving DecidableEq

/-- Parse outcome of the legacy "allTimeNotes" string: a mapping from date
identity to a list of notes (src/app.js lines 169-186).  The `?? []` in the
source normalises absent or null note lists; values are modelled as the
resulting lists. -/
inductive StoredNotes where
  | corrupt
  | jmap (m : List (Nat × List Note))
deriving DecidableEq

/-- The legacy flat "approachData" record named by the spec's storage
interface (`{date, count, streak}`).  src/app.js never reads, writes, or
removes this key; it only sits in storage. -/
structure ApproachBlob where
  date : Nat
  count : Int
  streak : Int
deriving DecidableEq

/-- localStorage contents relevant to the app: each key holds an optional
stored value (none when the key is absent). -/
structure Storage where
  dailyDataStore : Option StoredStore
  currentStreak : Option StoredStreak
  allTimeNotes : Option StoredNotes
  approachData : Option ApproachBlob
deriving DecidableEq

def emptyStorage : Storage := ⟨none, none, none, none⟩

/-- The piece of the DOM environment the core's control flow depends on:
whether the "todayNotesList" container element exists (src/app.js line 346,
guard at line 348). -/
structure Env where
  todayNotesList : Bool
deriving DecidableEq

/-- JavaScript exceptions that can escape the modelled operations. -/
inductive JsErr where
  | refError
  | typeError
deriving DecidableEq

/-- Module-level mutable state of src/app.js: `count` (line 18), `streak`
(line 19), `dailyDataStore` (line 24), `deadlinePassed` (line 87), whether
the punishment banner is shown (the punishment signal), plus localStorage. -/
structure AppState where
  count : Int
  streak : Int
  dailyDataStore : StoreMap
  deadlinePassed : Bool
  punishmentShown : Bool
  storage : Storage
deriving DecidableEq

/-- State right after the script's top-level declarations run:
count 0, streak 0, empty store, deadline flag false, banner hidden. -/
def initialState (st : Storage) : AppState :=
  { count := 0, streak := 0, dailyDataStore := [], deadlinePassed := false,
    punishmentShown := false, storage := st }

/-- updateUI (src/app.js lines 285-324).  Its DOM writes are out of scope,
but it calls displayTodayApproachCount, which calls displayTodayNotes
(lines 344-372).  There, when the "todayNotesList" container exists, the
code reads `notes.length` where `notes` is an identifier that is defined
nowhere in the file, so evaluation throws a ReferenceError; when the
container is absent the guard at line 348 returns first. -/
def updateUI (env : Env) : Option JsErr :=
  if env.todayNotesList then some .refError else none

/-- saveData (src/app.js lines 155-161): serialise the in-memory store and
streak into the two storage keys. -/
def saveData (s : AppState) : AppState :=
  { s with storage := { s.storage with
      dailyDataStore := some (.jmap s.dailyDataStore),
      currentStreak := some (.jint s.streak) } }

/-- migrateOldData (src/app.js lines 167-198).  Reads the legacy
"allTimeNotes" key; on parse failure the catch logs and nothing changes
(removeItem is inside the try, after the failing parse).  Otherwise each
legacy date is folded into the in-memory dailyDataStore - a fresh record
with approachCount 0 when the date is absent, and when the date is present
its notes field is assigned the legacy list (the source's else branch
replaces the notes).  The result is written to the "dailyDataStore" key and
"allTimeNotes" is removed.  The "approachData" key is never touched. -/
def migrateOldData (s : AppState) : AppState :=
  match s.storage.allTimeNotes with
  | none => s
  | some .corrupt => s
  | some (.jmap old) =>
    let store1 := old.foldl (fun st p =>
      match lookupD st p.1 with
      | none => insertD st p.1 { date := p.1, approachCount := 0, notes := p.2 }
      | some r => insertD st p.1 { r with notes := p.2 }) s.dailyDataStore
    { s with dailyDataStore := store1,
             storage := { s.storage with
               dailyDataStore := some (.jmap store1),
               allTimeNotes := none } }

/-- The streak-loading step of loadData (src/app.js lines 225-233): absent
key keeps the current value, a parse failure is caught and sets 0, an
integer is taken as-is. -/
def loadStreak (cur : Int) : Option StoredStreak → Int
  | none => cur
  | some .corrupt => 0
  | some (.jint n) => n

/-- The today-initialisation step of loadData (src/app.js lines 236-242):
create today's record if absent. -/
def ensureToday (m : StoreMap) (today : Nat) : StoreMap :=
  match lookupD m today with
  | none => insertD m today { date := today, approachCount := 0, notes := [] }
  | some _ => m

/-- The yesterday-reconciliation step of loadData (src/app.js lines
244-270): when a record for yesterday exists, a count of at least 10 keeps
the streak, otherwise the streak is zeroed and the punishment banner shown.
When no record for yesterday exists nothing happens.  The source's
`approachCount || 0` is the identity on the modelled integer field. -/
def reconcileYesterday (m : StoreMap) (today : Nat) (streak1 : Int) (pun : Bool) :
    Int × Bool :=
  match lookupD m (today - 1) with
  | some r => if 10 ≤ r.approachCount then (streak1, pun) else (0, true)
  | none => (streak1, pun)

/-- loadData (src/app.js lines 210-274).  The stored "dailyDataStore" value
replaces the in-memory store when present (a parse failure is caught and
sets the empty store).  A parsed null makes the later `dailyDataStore[today]`
read at line 236 throw a TypeError; a parsed number makes the write at line
237 a silent no-op (sloppy-mode primitive) and the `.approachCount` read at
line 250 throw a TypeError - in both cases after the streak was already
loaded.  Otherwise today's record is ensured, count is restored from it (the
record always carries the field in this model, so the
`!== undefined` test at line 250 passes), the streak is reconciled against
yesterday, and updateUI then saveData run - when updateUI throws, saveData
is never reached and the exception escapes with the in-memory mutations
already applied. -/
def loadData (env : Env) (now : Instant) (s : AppState) : AppState × Option JsErr :=
  match s.storage.dailyDataStore with
  | some .jnull =>
      ({ s with streak := loadStreak s.streak s.storage.currentStreak }, some .typeError)
  | some (.jnum _) =>
      ({ s with streak := loadStreak s.streak s.storage.currentStreak }, some .typeError)
  | dsv =>
    let store0 : StoreMap :=
      match dsv with
      | some (.jmap m) => m
      | some .corrupt => []
      | _ => s.dailyDataStore
    let store1 := ensureToday store0 now.day
    let cnt : Int :=
      match lookupD store1 now.day with
      | some r => r.approachCount
      | none => 0
    let sp := reconcileYesterday store1 now.day
      (loadStreak s.streak s.storage.currentStreak) s.punishmentShown
    let s1 := { s with dailyDataStore := store1, streak := sp.1, count := cnt, punishmentShown := sp.2 }
    match updateUI env with
    | some e => (s1, some e)
    | none => (saveData s1, none)

/-- The approachBtn click listener (src/app.js lines 391-413), the
recordApproach operation of the spec.  When count is below 10 it increments
count, credits the streak exactly when the new count is 10, hides the
punishment banner, and runs updateUI then saveData.  It never writes
`dailyDataStore[today]`, so only the stale store is re-serialised.  When
count is already 10 nothing but the button animation happens. -/
def recordApproach (env : Env) (s : AppState) : AppState × Option JsErr :=
  if s.count < 10 then
    let c := s.count + 1
    let st := if c = 10 then s.streak + 1 else s.streak
    let s1 := { s with count := c, streak := st, punishmentShown := false }
    match updateUI env with
    | some e => (s1, some e)
    | none => (saveData s1, none)
  else (s, none)

/-- The deadline target computed at the top of updateTimer (src/app.js
lines 90-96, same computation as getDayEndTimestamp at lines 44-54):
today's 20:00, or tomorrow's when that is already strictly in the past. -/
def nextDeadline (now : Instant) : Instant :=
  let t : Instant := { day := now.day, ms := deadlineMs }
  if t.abs < now.abs then { day := now.day + 1, ms := deadlineMs } else t

/-- The `diff` value of updateTimer (src/app.js line 98). -/
def timerDiff (now : Instant) : Int :=
  ((nextDeadline now).abs : Int) - (now.abs : Int)

/-- updateTimer (src/app.js lines 89-140), the periodic tick.  When diff is
nonpositive and the deadlinePassed flag is clear, the rollover runs: the
flag is set, today's count is checkpointed into
`dailyDataStore[today].approachCount` (a TypeError when today's record is
absent - the flag is already set by then), a count below 10 shows the
punishment banner and zeroes the streak, count resets to 0, and updateUI
then saveData run (a throw in updateUI skips saveData).  When the flag is
already set only the timer text changes.  When diff is positive the
countdown text is recomputed and the flag is cleared (the source's
midnight-reset line, which in fact runs on every pre-deadline tick). -/
def updateTimer (env : Env) (now : Instant) (s : AppState) : AppState × Option JsErr :=
  if timerDiff now ≤ 0 then
    if s.deadlinePassed then (s, none)
    else
      match lookupD s.dailyDataStore now.day with
      | none => ({ s with deadlinePassed := true }, some .typeError)
      | some r =>
        let store1 := insertD s.dailyDataStore now.day { r with approachCount := s.count }
        let sp : Int × Bool :=
          if s.count < 10 then (0, true) else (s.streak, s.punishmentShown)
        let s1 := { s with deadlinePassed := true, dailyDataStore := store1, streak := sp.1, punishmentShown := sp.2, count := 0 }
        match updateUI env with
        | some e => (s1, some e)
        | none => (saveData s1, none)
  else ({ s with deadlinePassed := false }, none)

/-- State component of a tick. -/
def tickS (env : Env) (now : Instant) (s : AppState) : AppState :=
  (updateTimer env now s).1

/-- Run a sequence of ticks at the given instants. -/
def run (env : Env) (ts : List Instant) (s : AppState) : AppState :=
  ts.foldl (fun st u => tickS env u st) s

/-- The script's initialisation sequence (src/app.js lines 536-539):
migrateOldData on the freshly initialised module state, then loadData.
(The immediate updateTimer call at line 144 is a pure countdown update
except in the measure-zero case of loading exactly at the deadline.) -/
def initApp (env : Env) (now : Instant) (st : Storage) : AppState × Option JsErr :=
  loadData env now (migrateOldData (initialState st))

/-- The observables named by the rollover-idempotence claim: count, streak,
the in-memory DataStore, the punishment signal, and persisted storage. -/
def obs (s : AppState) : Int × Int × StoreMap × Bool × Storage :=
  (s.count, s.streak, s.dailyDataStore, s.punishmentShown, s.storage)

/-- The tick instants are non-decreasing in time-of-day (real clock time
within one day never runs backwards). -/
def msSorted : List Instant → Bool
  | [] => true
  | [_] => true
  | a :: b :: tl => decide (a.ms ≤ b.ms) && msSorted (b :: tl)

/-- Every instant lies in calendar day d, within the day, at or after the
deadline instant. -/
def tickWindow (d : Nat) (ts : List Instant) : Bool :=
  ts.all fun u => decide (u.day = d) && decide (u.ms < msPerDay) && decide (deadlineMs ≤ u.ms)

/-- Environment in which the "todayNotesList" container is absent, so the
guard at src/app.js line 348 makes updateUI harmless. -/
def envN : Env := ⟨false⟩

/-- Environment in which the "todayNotesList" container exists
(index.html renders it), so displayTodayNotes reaches the undefined
identifier. -/
def envY : Env := ⟨true⟩

/-- State obtained by initialising the app on day 1 with empty storage. -/
def c1Loaded : AppState := (initApp envN ⟨1, 0⟩ emptyStorage).1

/-- Storage holding streak 4 and a single, completed record three days
before day 8: a multi-day gap with no failing record. -/
def c2Storage : Storage :=
  { dailyDataStore := some (.jmap [(5, { date := 5, approachCount := 10, notes := [] })]),
    currentStreak := some (.jint 4), allTimeNotes := none, approachData := none }

/-- Mid-day state on day 1 with 7 approaches logged and an active streak. -/
def c3State : AppState :=
  { count := 7, streak := 2, dailyDataStore := [(1, { date := 1, approachCount := 3, notes := [] })],
    deadlinePassed := false, punishmentShown := false, storage := emptyStorage }

/-- Instants of day 1 at and after the 20:00 deadline. -/
def c3Ticks : List Instant := [⟨1, 72000000⟩, ⟨1, 72000500⟩, ⟨1, 80000000⟩, ⟨1, 86399999⟩]

/-- Day-2 state with 9 approaches at the deadline. -/
def c4State : AppState :=
  { count := 9, streak := 5, dailyDataStore := [(2, { date := 2, approachCount := 4, notes := [] })],
    deadlinePassed := false, punishmentShown := false, storage := emptyStorage }

/-- Day-1 state one approach away from the target. -/
def c5State : AppState :=
  { count := 9, streak := 0, dailyDataStore := [(1, { date := 1, approachCount := 0, notes := [] })],
    deadlinePassed := false, punishmentShown := true, storage := emptyStorage }

/-- The same state once the target is reached. -/
def c5Done : AppState := { c5State with count := 10 }

/-- Storage with a completed record for day 7 (yesterday of day 8) and
streak 4: the spec's Scenario B. -/
def c6Storage : Storage :=
  { dailyDataStore := some (.jmap [(7, { date := 7, approachCount := 10, notes := [] })]),
    currentStreak := some (.jint 4), allTimeNotes := none, approachData := none }

/-- Storage with a failed record for day 7 (yesterday of day 8) and streak
4: the spec's Scenario C. -/
def c6StorageFail : Storage :=
  { dailyDataStore := some (.jmap [(7, { date := 7, approachCount := 3, notes := [] })]),
    currentStreak := some (.jint 4), allTimeNotes := none, approachData := none }

/-- A note already present in the unified store before migration. -/
def c7NoteOld : Note := { id := 11, text := "kept in the unified store", timestamp := "9:00 AM" }

/-- A note held only in the legacy allTimeNotes mapping. -/
def c7NoteLegacy : Note := { id := 22, text := "from the legacy mapping", timestamp := "8:00 AM" }

/-- The legacy flat approachData record sitting in storage. -/
def c7Blob : ApproachBlob := { date := 5, count := 3, streak := 1 }

/-- Storage holding both legacy shapes next to a unified record for the
same day 5 (count 5, one note). -/
def c7Storage : Storage :=
  { dailyDataStore := some (.jmap [(5, { date := 5, approachCount := 5, notes := [c7NoteOld] })]),
    currentStreak := some (.jint 2),
    allTimeNotes := some (.jmap [(5, [c7NoteLegacy])]),
    approachData := some c7Blob }

/-- Storage with legacy notes present, for exercising migration twice. -/
def c8Storage : Storage :=
  { dailyDataStore := some (.jmap []), currentStreak := none,
    allTimeNotes := some (.jmap [(3, [{ id := 7, text := "legacy", timestamp := "7:00 PM" }])]),
    approachData := none }

/-- Storage whose dailyDataStore value parses to JSON null: valid JSON of
the wrong shape. -/
def c9Storage : Storage :=
  { dailyDataStore := some .jnull, currentStreak := none,
    allTimeNotes := none, approachData := none }

/-- Storage whose two unified values are both corrupt JSON. -/
def c9CorruptStorage : Storage :=
  { dailyDataStore := some .corrupt, currentStreak := some .corrupt,
    allTimeNotes := none, approachData := none }

/-- A mid-day state on day 3 whose storage holds a well-shaped store map,
used with the container-present environment. -/
def c10State : AppState :=
  { count := 4, streak := 6, dailyDataStore := [(3, { date := 3, approachCount := 4, notes := [] })],
    deadlinePassed := false, punishmentShown := false,
    storage := { dailyDataStore := some (.jmap [(3, { date := 3, approachCount := 4, notes := [] })]),
                 currentStreak := some (.jint 6), allTimeNotes := none, approachData := none } }

/-- Writing a key and reading it back yields the written record. -/
theorem lookupD_insertD_self (m : StoreMap) (d : Nat) (r : DayRecord) :
    lookupD (insertD m d r) d = some r := by
  induction m with
  | nil => simp [insertD, lookupD]
  | cons p tl ih =>
    obtain ⟨k, r0⟩ := p
    by_cases h : k = d
    · simp [insertD, lookupD, h]
    · simp [insertD, lookupD, h, ih]

/-- Writing one key leaves reads of every other key unchanged. -/
theorem lookupD_insertD_ne (m : StoreMap) (d d2 : Nat) (r : DayRecord) (h : d2 ≠ d) :
    lookupD (insertD m d r) d2 = lookupD m d2 := by
  induction m with
  | nil => simp [insertD, lookupD, Ne.symm h]
  | cons p tl ih =>
    obtain ⟨k, r0⟩ := p
    by_cases hk : k = d
    · subst hk
      simp [insertD, lookupD, Ne.symm h]
    · by_cases hk2 : k = d2 <;> simp [insertD, lookupD, hk, hk2, h, ih]

/-- After ensureToday, today's key reads back as the prior record or the
fresh one. -/
theorem lookupD_ensureToday_self (m : StoreMap) (d : Nat) :
    lookupD (ensureToday m d) d =
      some (match lookupD m d with
            | some r => r
            | none => { date := d, approachCount := 0, notes := [] }) := by
  unfold ensureToday
  cases h : lookupD m d <;> simp [h, lookupD_insertD_self]

/-- ensureToday does not change reads of other keys. -/
theorem lookupD_ensureToday_ne (m : StoreMap) (d d2 : Nat) (h : d2 ≠ d) :
    lookupD (ensureToday m d) d2 = lookupD m d2 := by
  unfold ensureToday
  cases hl : lookupD m d <;> simp [lookupD_insertD_ne _ _ _ _ h]

/-- At the exact deadline instant the countdown difference is zero. -/
theorem timerDiff_eq_zero (u : Instant) (h : u.ms = deadlineMs) : timerDiff u = 0 := by
  simp [timerDiff, nextDeadline, Instant.abs, h]

/-- Strictly after the deadline (still within the day) the countdown
difference is positive: the target has moved to tomorrow. -/
theorem timerDiff_pos (u : Instant) (h1 : deadlineMs < u.ms) (h2 : u.ms < msPerDay) :
    0 < timerDiff u := by
  have hc : ({ day := u.day, ms := deadlineMs } : Instant).abs < u.abs := by
    simp only [Instant.abs]
    omega
  simp only [timerDiff, nextDeadline, hc, if_true]
  simp only [Instant.abs, deadlineMs, msPerDay] at h2 ⊢
  push_cast
  omega

/-- A tick at the deadline with the flag already set changes nothing. -/
theorem updateTimer_guard (env : Env) (u : Instant) (s : AppState)
    (hms : u.ms = deadlineMs) (hdp : s.deadlinePassed = true) :
    updateTimer env u s = (s, none) := by
  simp [updateTimer, timerDiff_eq_zero u hms, hdp]

/-- A tick strictly after the deadline only clears the flag. -/
theorem updateTimer_late (env : Env) (u : Instant) (s : AppState)
    (h1 : deadlineMs < u.ms) (h2 : u.ms < msPerDay) :
    updateTimer env u s = ({ s with deadlinePassed := false }, none) := by
  have hpos := timerDiff_pos u h1 h2
  unfold updateTimer
  rw [if_neg (by omega)]

/-- A firing tick always leaves the deadline flag set, whether or not the
store write or updateUI throws. -/
theorem updateTimer_fire_dp (env : Env) (u : Instant) (s : AppState)
    (hms : u.ms = deadlineMs) (hdp : s.deadlinePassed = false) :
    (tickS env u s).deadlinePassed = true := by
  unfold tickS updateTimer
  rw [timerDiff_eq_zero u hms]
  simp only [hdp]
  cases hl : lookupD s.dailyDataStore u.day <;>
    cases henv : updateUI env <;>
      simp [hl, henv, saveData]

/-- The tail of a time-sorted tick list is time-sorted. -/
theorem msSorted_tail (u : Instant) (tl : List Instant) (h : msSorted (u :: tl) = true) :
    msSorted tl = true := by
  cases tl with
  | nil => rfl
  | cons v tl2 =>
    simp only [msSorted, Bool.and_eq_true] at h
    exact h.2

/-- The first two entries of a time-sorted tick list are ordered. -/
theorem msSorted_head (u v : Instant) (tl : List Instant)
    (h : msSorted (u :: v :: tl) = true) : u.ms ≤ v.ms := by
  simp only [msSorted, Bool.and_eq_true, decide_eq_true_eq] at h
  exact h.1

/-- Ticks at or after the deadline, within one day and in time order, never
change the observable state when the flag is set (or every remaining tick
is strictly past the deadline). -/
theorem run_preserves_obs (env : Env) (d : Nat) (ts : List Instant) :
    ∀ s : AppState, tickWindow d ts = true → msSorted ts = true →
      (s.deadlinePassed = true ∨ ∀ v ∈ ts.head?, deadlineMs < v.ms) →
      obs (run env ts s) = obs s := by
  induction ts with
  | nil => intro s _ _ _; rfl
  | cons u tl ih =>
    intro s hw hs hinv
    have hw2 := hw
    simp only [tickWindow, List.all_cons, Bool.and_eq_true, decide_eq_true_eq] at hw2
    obtain ⟨⟨⟨hud, hums⟩, hudl⟩, htl⟩ := hw2
    have htl2 : tickWindow d tl = true := htl
    have hstl : msSorted tl = true := msSorted_tail u tl hs
    have hrun : run env (u :: tl) s = run env tl (tickS env u s) := rfl
    rcases Nat.lt_or_ge deadlineMs u.ms with hgt | hge
    · have ht : tickS env u s = { s with deadlinePassed := false } := by
        simp [tickS, updateTimer_late env u s hgt hums]
      have hinv2 : ({ s with deadlinePassed := false } : AppState).deadlinePassed = true ∨
          ∀ v ∈ tl.head?, deadlineMs < v.ms := by
        right
        intro v hv
        cases tl with
        | nil => simp at hv
        | cons w tl2 =>
          simp only [List.head?, Option.mem_def, Option.some.injEq] at hv
          subst hv
          have hle := msSorted_head u w tl2 hs
          omega
      rw [hrun, ht, ih _ htl2 hstl hinv2]
      rfl
    · have hue : u.ms = deadlineMs := le_antisymm hge hudl
      have hdp : s.deadlinePassed = true := by
        rcases hinv with h | h
        · exact h
        · exfalso
          have hu := h u (by simp [List.head?])
          omega
      have ht : tickS env u s = s := by
        simp [tickS, updateTimer_guard env u s hue hdp]
      rw [hrun, ht]
      exact ih s htl2 hstl (Or.inl hdp)

/-- C1.  The claim says that after every recordApproach below 10 the
persisted DataStore entry for today equals the new currentCount.  On the
code this fails at the very first mutation of a fresh day: the click
listener (src/app.js lines 391-413) never writes
`dailyDataStore[today].approachCount`, so saveData re-serialises the stale
entry.  After loading day 1 from empty storage and recording one approach,
currentCount is 1 while the persisted entry still carries approachCount 0. -/
theorem c1_persisted_count_stale :
    (initApp envN ⟨1, 0⟩ emptyStorage).2 = none ∧
    (recordApproach envN c1Loaded).2 = none ∧
    (recordApproach envN c1Loaded).1.count = 1 ∧
    (recordApproach envN c1Loaded).1.storage.dailyDataStore =
      some (.jmap [(1, { date := 1, approachCount := 0, notes := [] })]) ∧
    lookupD (recordApproach envN c1Loaded).1.dailyDataStore 1 =
      some { date := 1, approachCount := 0, notes := [] } := by
  decide

/-- C2.  The claim (and loadData's own docstring, src/app.js line 208) says
a gap of two or more days forces the streak to 0 on load.  The code's
yesterday branch (lines 257-270) runs only when a record for yesterday
exists, so with stored streak 4 and only a completed record three days back,
loading on day 8 keeps streak 4.  Punishment is indeed not signaled. -/
theorem c2_gap_keeps_streak :
    (loadData envN ⟨8, 0⟩ (initialState c2Storage)).2 = none ∧
    (loadData envN ⟨8, 0⟩ (initialState c2Storage)).1.streak = 4 ∧
    (loadData envN ⟨8, 0⟩ (initialState c2Storage)).1.punishmentShown = false := by
  decide

/-- C3.  Once a tick at the deadline instant performs the rollover, every
later tick of the same calendar day - however many times the host polls,
including repeated polls at the deadline itself - leaves count, streak, the
DataStore, the punishment signal, and persisted storage unchanged.  (Later
pre-midnight ticks do clear the deadlinePassed flag, but a second firing
would need the countdown difference to be nonpositive again, which cannot
recur on the same day.) -/
theorem rollover_fires_at_most_once_per_day (env : Env) (s : AppState) (t : Instant)
    (ts : List Instant) (h1 : t.ms = deadlineMs) (h2 : s.deadlinePassed = false)
    (h3 : tickWindow t.day ts = true) (h4 : msSorted ts = true) :
    obs (run env ts (tickS env t s)) = obs (tickS env t s) :=
  run_preserves_obs env t.day ts (tickS env t s) h3 h4
    (Or.inl (updateTimer_fire_dp env t s h1 h2))

/-- Witness for C3: a concrete mid-day state rolled over at 20:00 of day 1,
then polled again at the deadline, twice shortly after, and just before
midnight. -/
theorem rollover_fires_at_most_once_per_day_witness :
    obs (run envN c3Ticks (tickS envN ⟨1, 72000000⟩ c3State)) =
      obs (tickS envN ⟨1, 72000000⟩ c3State) :=
  rollover_fires_at_most_once_per_day envN c3State ⟨1, 72000000⟩ c3Ticks
    (by decide) (by decide) (by decide) (by decide)

/-- C4.  A firing rollover freezes today's record at the current count,
zeroes the streak and shows the punishment banner exactly when that count
is below 10, leaves streak and banner untouched when the count is 10, and
touches no other day's record (in particular it does not create
tomorrow's). -/
theorem rollover_freezes_today (env : Env) (s : AppState) (t : Instant) (r : DayRecord)
    (h1 : t.ms = deadlineMs) (h2 : s.deadlinePassed = false)
    (h3 : lookupD s.dailyDataStore t.day = some r) :
    lookupD (tickS env t s).dailyDataStore t.day =
      some { r with approachCount := s.count } ∧
    (s.count < 10 → (tickS env t s).streak = 0 ∧ (tickS env t s).punishmentShown = true) ∧
    (s.count = 10 → (tickS env t s).streak = s.streak ∧
      (tickS env t s).punishmentShown = s.punishmentShown) ∧
    (∀ d2, d2 ≠ t.day →
      lookupD (tickS env t s).dailyDataStore d2 = lookupD s.dailyDataStore d2) := by
  unfold tickS updateTimer
  rw [timerDiff_eq_zero t h1]
  simp only [h2, h3]
  cases henv : updateUI env
  case none =>
    refine ⟨?_, fun h => ?_, fun h => ?_, fun d2 hne => ?_⟩
    · simp [saveData, lookupD_insertD_self]
    · simp [saveData, h]
    · simp [saveData, show ¬ s.count < 10 by omega]
    · simp [saveData, lookupD_insertD_ne _ _ _ _ hne]
  case some e =>
    refine ⟨?_, fun h => ?_, fun h => ?_, fun d2 hne => ?_⟩
    · simp [lookupD_insertD_self]
    · simp [h]
    · simp [show ¬ s.count < 10 by omega]
    · simp [lookupD_insertD_ne _ _ _ _ hne]

/-- Witness for C4: day 2, 9 approaches at the deadline - the record is
frozen at 9, streak drops to 0, punishment shows, and day 3 stays absent. -/
theorem rollover_freezes_today_witness :
    lookupD (tickS envN ⟨2, 72000000⟩ c4State).dailyDataStore 2 =
      some { date := 2, approachCount := 9, notes := [] } ∧
    (tickS envN ⟨2, 72000000⟩ c4State).streak = 0 ∧
    (tickS envN ⟨2, 72000000⟩ c4State).punishmentShown = true ∧
    lookupD (tickS envN ⟨2, 72000000⟩ c4State).dailyDataStore 3 = none := by
  obtain ⟨hA, hB, _, hD⟩ := rollover_freezes_today envN c4State ⟨2, 72000000⟩
    { date := 2, approachCount := 4, notes := [] } (by decide) (by decide) (by decide)
  refine ⟨hA, (hB (by decide)).1, (hB (by decide)).2, ?_⟩
  rw [hD 3 (by decide)]
  decide

/-- C5.  recordApproach increments the in-progress count by exactly one
while it is below 10, credits the streak exactly on the call that reaches
10 and never otherwise, and is a complete no-op (state unchanged, no error)
once the count is 10.  This holds in every environment, since the count and
streak mutations precede the updateUI call. -/
theorem recordApproach_correct (env : Env) (s : AppState) :
    ((recordApproach env s).1.count = if s.count < 10 then s.count + 1 else s.count) ∧
    ((recordApproach env s).1.streak =
      if s.count < 10 ∧ s.count + 1 = 10 then s.streak + 1 else s.streak) ∧
    (s.count = 10 → recordApproach env s = (s, none)) := by
  by_cases h : s.count < 10
  · have h10 : ¬ s.count = 10 := by omega
    cases henv : updateUI env <;>
      simp [recordApproach, h, h10, henv, saveData]
  · refine ⟨?_, ?_, fun hq => ?_⟩ <;>
      simp [recordApproach, h]

/-- Witness for C5: from count 9 one approach reaches 10 and credits the
streak once; from count 10 a further call changes nothing. -/
theorem recordApproach_correct_witness :
    (recordApproach envN c5State).1.count = 10 ∧
    (recordApproach envN c5State).1.streak = 1 ∧
    recordApproach envN c5Done = (c5Done, none) := by
  obtain ⟨h1, h2, _⟩ := recordApproach_correct envN c5State
  obtain ⟨_, _, h3⟩ := recordApproach_correct envN c5Done
  refine ⟨?_, ?_, h3 (by decide)⟩
  · rw [h1]; decide
  · rw [h2]; decide

/-- C6.  When the persisted store holds a DayRecord for yesterday, loading
preserves the stored streak and does not touch the punishment signal when
that record's count is at least 10, and forces streak 0 and shows the
punishment signal when the count is below 10.  This describes the in-memory
reconciliation (src/app.js lines 256-270), which precedes updateUI. -/
theorem load_reconciles_yesterday (env : Env) (now : Instant) (s : AppState)
    (m : StoreMap) (σ : Int) (r : DayRecord)
    (hd : 0 < now.day)
    (hm : s.storage.dailyDataStore = some (.jmap m))
    (hs : s.storage.currentStreak = some (.jint σ))
    (hy : lookupD m (now.day - 1) = some r) :
    (10 ≤ r.approachCount →
      (loadData env now s).1.streak = σ ∧
      (loadData env now s).1.punishmentShown = s.punishmentShown) ∧
    (r.approachCount < 10 →
      (loadData env now s).1.streak = 0 ∧
      (loadData env now s).1.punishmentShown = true) := by
  have hne : now.day - 1 ≠ now.day := by omega
  have hy2 : lookupD (ensureToday m now.day) (now.day - 1) = some r := by
    rw [lookupD_ensureToday_ne m now.day (now.day - 1) hne]
    exact hy
  unfold loadData
  rw [hm]
  simp only [loadStreak, hs, reconcileYesterday, hy2]
  constructor
  · intro h
    cases henv : updateUI env <;> simp [h, saveData]
  · intro h
    have h2 : ¬ 10 ≤ r.approachCount := by omega
    cases henv : updateUI env <;> simp [h2, saveData]

/-- Witness for C6: Scenario B (yesterday completed, streak 4 preserved, no
punishment) and Scenario C (yesterday failed, streak zeroed, punishment
signaled), both loaded on day 8. -/
theorem load_reconciles_yesterday_witness :
    (loadData envN ⟨8, 0⟩ (initialState c6Storage)).1.streak = 4 ∧
    (loadData envN ⟨8, 0⟩ (initialState c6Storage)).1.punishmentShown = false ∧
    (loadData envN ⟨8, 0⟩ (initialState c6StorageFail)).1.streak = 0 ∧
    (loadData envN ⟨8, 0⟩ (initialState c6StorageFail)).1.punishmentShown = true := by
  obtain ⟨hB, _⟩ := load_reconciles_yesterday envN ⟨8, 0⟩ (initialState c6Storage)
    [(7, { date := 7, approachCount := 10, notes := [] })] 4
    { date := 7, approachCount := 10, notes := [] }
    (by decide) (by decide) (by decide) (by decide)
  obtain ⟨_, hC⟩ := load_reconciles_yesterday envN ⟨8, 0⟩ (initialState c6StorageFail)
    [(7, { date := 7, approachCount := 3, notes := [] })] 4
    { date := 7, approachCount := 3, notes := [] }
    (by decide) (by decide) (by decide) (by decide)
  obtain ⟨hB1, hB2⟩ := hB (by decide)
  obtain ⟨hC1, hC2⟩ := hC (by decide)
  exact ⟨hB1, hB2, hC1, hC2⟩

/-- C7.  The claim says migration folds legacy data into the unified
DataStore, merging counts and notes into the corresponding DayRecord with
existing notes retained, and deletes the legacy keys.  On the code this
fails: migration runs before loadData on the empty module-level store
(src/app.js lines 538-539), rebuilds the persisted "dailyDataStore" from
the legacy notes alone, and loadData then reads that back - so the
pre-existing unified record for day 5 (count 5, one note) comes out as
approachCount 0 with only the legacy note, and the "approachData" key is
never read or removed (only "allTimeNotes" is). -/
theorem migration_clobbers_unified_store :
    (initApp envN ⟨6, 0⟩ c7Storage).2 = none ∧
    lookupD (initApp envN ⟨6, 0⟩ c7Storage).1.dailyDataStore 5 =
      some { date := 5, approachCount := 0, notes := [c7NoteLegacy] } ∧
    (initApp envN ⟨6, 0⟩ c7Storage).1.storage.approachData = some c7Blob ∧
    (initApp envN ⟨6, 0⟩ c7Storage).1.storage.allTimeNotes = none := by
  decide

/-- C8.  Migration is idempotent: with no legacy "allTimeNotes" value it is
the identity on the whole state, and running it twice equals running it
once (the first successful run removes the legacy key, so the second does
nothing - no notes are duplicated, no counts overwritten). -/
theorem migrateOldData_idempotent (s : AppState) :
    (s.storage.allTimeNotes = none → migrateOldData s = s) ∧
    migrateOldData (migrateOldData s) = migrateOldData s := by
  constructor
  · intro h
    simp [migrateOldData, h]
  · rcases h : s.storage.allTimeNotes with _ | v
    · simp [migrateOldData, h]
    · cases v
      · simp [migrateOldData, h]
      · simp [migrateOldData, h]

/-- Witness for C8: the empty storage is untouched, and migrating a store
with legacy notes twice equals migrating it once. -/
theorem migrateOldData_idempotent_witness :
    migrateOldData (initialState emptyStorage) = initialState emptyStorage ∧
    migrateOldData (migrateOldData (initialState c8Storage)) =
      migrateOldData (initialState c8Storage) :=
  ⟨(migrateOldData_idempotent (initialState emptyStorage)).1 (by decide),
   (migrateOldData_idempotent (initialState c8Storage)).2⟩

/-- C9 counterexample.  The claim says a stored dailyDataStore value of the
wrong shape is recovered locally and never propagates a failure.  A stored
value that parses to JSON null is valid JSON of the wrong shape, and
loadData then throws a TypeError at the `dailyDataStore[today]` read
(src/app.js line 236): the failure reaches the caller. -/
theorem load_wrong_shape_throws :
    (loadData envN ⟨1, 0⟩ (initialState c9Storage)).2 = some .typeError := by
  decide

/-- C9 amended.  Parse failures (corrupt JSON) of the stored dailyDataStore
and currentStreak values are recovered locally - empty store, zero streak -
and load completes without error, creating today's record; and from empty
storage, load yields count 0, streak 0, an existing today record with empty
notes, and re-persists the store (Scenario A).  Wrong-shape values are not
covered: they throw, per the counterexample. -/
theorem load_recovers_parse_failures (env : Env) (now : Instant) (s : AppState)
    (hd : 0 < now.day) (henv : env.todayNotesList = false)
    (h1 : s.storage.dailyDataStore = some .corrupt)
    (h2 : s.storage.currentStreak = some .corrupt) :
    ((loadData env now s).2 = none ∧
     (loadData env now s).1.count = 0 ∧
     (loadData env now s).1.streak = 0 ∧
     lookupD (loadData env now s).1.dailyDataStore now.day =
       some { date := now.day, approachCount := 0, notes := [] } ∧
     (loadData env now s).1.storage.dailyDataStore =
       some (.jmap (loadData env now s).1.dailyDataStore)) ∧
    ((initApp env now emptyStorage).2 = none ∧
     (initApp env now emptyStorage).1.count = 0 ∧
     (initApp env now emptyStorage).1.streak = 0 ∧
     lookupD (initApp env now emptyStorage).1.dailyDataStore now.day =
       some { date := now.day, approachCount := 0, notes := [] }) := by
  have hne : ¬ now.day = now.day - 1 := by omega
  have henv2 : updateUI env = none := by simp [updateUI, henv]
  constructor
  · unfold loadData
    rw [h1]
    simp [h2, loadStreak, ensureToday, lookupD, insertD, reconcileYesterday,
      hne, henv2, saveData]
  · unfold initApp loadData
    simp [migrateOldData, initialState, emptyStorage, loadStreak, ensureToday,
      lookupD, insertD, reconcileYesterday, hne, henv2, saveData]

/-- Witness for C9: corrupt JSON under both keys on day 1 is recovered with
defaults and today's record created, and Scenario A holds from empty
storage. -/
theorem load_recovers_parse_failures_witness :
    ((loadData envN ⟨1, 0⟩ (initialState c9CorruptStorage)).2 = none ∧
     (loadData envN ⟨1, 0⟩ (initialState c9CorruptStorage)).1.count = 0 ∧
     (loadData envN ⟨1, 0⟩ (initialState c9CorruptStorage)).1.streak = 0 ∧
     lookupD (loadData envN ⟨1, 0⟩ (initialState c9CorruptStorage)).1.dailyDataStore 1 =
       some { date := 1, approachCount := 0, notes := [] } ∧
     (loadData envN ⟨1, 0⟩ (initialState c9CorruptStorage)).1.storage.dailyDataStore =
       some (.jmap (loadData envN ⟨1, 0⟩ (initialState c9CorruptStorage)).1.dailyDataStore)) ∧
    ((initApp envN ⟨1, 0⟩ emptyStorage).2 = none ∧
     (initApp envN ⟨1, 0⟩ emptyStorage).1.count = 0 ∧
     (initApp envN ⟨1, 0⟩ emptyStorage).1.streak = 0 ∧
     lookupD (initApp envN ⟨1, 0⟩ emptyStorage).1.dailyDataStore 1 =
       some { date := 1, approachCount := 0, notes := [] }) :=
  load_recovers_parse_failures envN ⟨1, 0⟩ (initialState c9CorruptStorage)
    (by decide) (by decide) (by decide) (by decide)

/-- C10.  displayTodayNotes dereferences the undefined identifier at
src/app.js line 353 whenever the "todayNotesList" container exists, so
updateUI throws a ReferenceError there; and because loadData (line 272) and
the deadline-rollover branch of updateTimer (line 121) call updateUI before
saveData, both operations abort with that error before persisting: storage
is left exactly as it was (while the rollover's in-memory mutations,
including the deadlinePassed flag, have already happened). -/
theorem ui_reference_error_blocks_persistence (env : Env) (now : Instant)
    (s : AppState) (m : StoreMap) (r : DayRecord)
    (henv : env.todayNotesList = true)
    (hm : s.storage.dailyDataStore = some (.jmap m))
    (hdp : s.deadlinePassed = false)
    (hr : lookupD s.dailyDataStore now.day = some r) :
    updateUI env = some .refError ∧
    (loadData env now s).2 = some .refError ∧
    (loadData env now s).1.storage = s.storage ∧
    (updateTimer env ⟨now.day, deadlineMs⟩ s).2 = some .refError ∧
    (updateTimer env ⟨now.day, deadlineMs⟩ s).1.storage = s.storage ∧
    (updateTimer env ⟨now.day, deadlineMs⟩ s).1.deadlinePassed = true := by
  have henv2 : updateUI env = some .refError := by simp [updateUI, henv]
  have hz : timerDiff ⟨now.day, deadlineMs⟩ = 0 := timerDiff_eq_zero _ rfl
  refine ⟨henv2, ?_, ?_, ?_, ?_, ?_⟩ <;>
    first
      | (unfold loadData; rw [hm]; simp [henv2])
      | (unfold updateTimer; rw [hz]; simp [hdp, hr, henv2])

/-- Witness for C10: with the container present, loading a well-shaped
store on day 3 and ticking at day 3's deadline both error out with storage
untouched. -/
theorem ui_reference_error_blocks_persistence_witness :
    (loadData envY ⟨3, 100⟩ c10State).2 = some .refError ∧
    (loadData envY ⟨3, 100⟩ c10State).1.storage = c10State.storage ∧
    (updateTimer envY ⟨3, deadlineMs⟩ c10State).2 = some .refError ∧
    (updateTimer envY ⟨3, deadlineMs⟩ c10State).1.storage = c10State.storage := by
  obtain ⟨_, h2, h3, h4, h5, _⟩ := ui_reference_error_blocks_persistence envY ⟨3, 100⟩
    c10State [(3, { date := 3, approachCount := 4, notes := [] })]
    { date := 3, approachCount := 4, notes := [] }
    (by decide) (by decide) (by decide) (by decide)
  exact ⟨h2, h3, h4, h5⟩

end TenOrDie
